import Mathlib

/-!
Verification of the rule-evaluation and severity-aggregation engine of the
jiracsv repository (`analysis/checks.go`), shallowly embedded in Lean 4.

The engine consumes a read-only issue-analysis snapshot and folds an ordered
list of independent checks into one `CheckResult` accumulator holding a
readiness flag, a severity status and an ordered list of diagnostic messages.
-/

namespace Jiracsv

/-- Type `CheckResultStatus` from `analysis/checks.go`: the four-valued severity,
declared in Go as consecutive integer constants NONE, GREEN, YELLOW, RED. -/
inductive CheckResultStatus where
  | none
  | green
  | yellow
  | red
deriving DecidableEq, Repr

/-- The underlying integer value of a `CheckResultStatus` (the Go `iota`). -/
def CheckResultStatus.toNat : CheckResultStatus → Nat
  | .none => 0
  | .green => 1
  | .yellow => 2
  | .red => 3

instance : LE CheckResultStatus := ⟨fun s t => s.toNat ≤ t.toNat⟩

instance (s t : CheckResultStatus) : Decidable (s ≤ t) :=
  inferInstanceAs (Decidable (s.toNat ≤ t.toNat))

/-- Structure `CheckResult` from `analysis/checks.go`. -/
structure CheckResult where
  Ready : Bool
  Status : CheckResultStatus
  Messages : List String
deriving DecidableEq, Repr

/-- Go `strings.HasPrefix(s, p)`, embedded on the character lists. -/
def hasPrefixGo (s p : String) : Bool :=
  p.data.isPrefixOf s.data

/-- Modelled from the spec: a fix-version entry of the external `jira` package
(absent from the sources); the engine only reads its `Name`. -/
structure FixVersion where
  Name : String
deriving DecidableEq, Repr

/-- Modelled from the spec: a component entry of the external `jira` package
(absent from the sources); the engine only reads its `Name`. -/
structure ComponentRef where
  Name : String
deriving DecidableEq, Repr

/-- Modelled from the spec: the epic reference of the external `jira` package
(absent from the sources); the engine only reads its `Key`. -/
structure EpicRef where
  Key : String
deriving DecidableEq, Repr

/-- Modelled from the spec: the planning-flags record with the three
independent boolean toggles no-QE, no-feature and no-doc. -/
structure Planning where
  NoQE : Bool
  NoFeature : Bool
  NoDoc : Bool
deriving DecidableEq, Repr

/-- Modelled from the spec: a linked child issue, reduced to the fields the
engine inspects (impediment flag, active/done classification, component
names). -/
structure LinkedIssue where
  Impediment : Bool
  IsActive : Bool
  InStatusDone : Bool
  Components : List String
deriving DecidableEq, Repr

/-- Modelled from the spec: `jira.Issue.HasComponent`, membership of a
component name in the linked issue's component list. -/
def LinkedIssue.HasComponent (i : LinkedIssue) (c : String) : Bool :=
  i.Components.contains c

/-- Modelled from the spec: `jira.IssueCollection.AnyImpediment`, the derived
"any linked issue impediment" boolean. -/
def AnyImpediment (l : List LinkedIssue) : Bool :=
  l.any (·.Impediment)

/-- Modelled from the spec: the `Fields` record of the external `jira.Issue`
(absent from the sources), reduced to the fields the engine reads. -/
structure IssueFields where
  FixVersions : List FixVersion
  Description : String
  Components : List ComponentRef
  Epic : Option EpicRef
deriving DecidableEq, Repr

/-- Modelled from the spec: the external `jira.Issue` (absent from the
sources).  Its classification methods (`InStatus`, `IsType`, `IsActive`,
`Approved`, `IsPrioritized`) are abstract predicates of the missing package and
are embedded as independent boolean fields of the snapshot. -/
structure Issue where
  Fields : IssueFields
  Owner : String
  QAContact : String
  Acceptance : String
  Design : String
  ParentLink : String
  Planning : Planning
  Impediment : Bool
  LinkedIssues : List LinkedIssue
  InStatusObsolete : Bool
  InStatusDone : Bool
  IsActive : Bool
  IsTypeEpic : Bool
  IsTypeStory : Bool
  Approved : Bool
  IsPrioritized : Bool
deriving DecidableEq, Repr

/-- Modelled from the spec: an aggregate completion counter computed by the
external snapshot builder: `Status` = closed-equivalent count, `Total` = all
count, `Unknown` = children missing an estimate (points completion only). -/
structure Completion where
  Status : Nat
  Total : Nat
  Unknown : Nat
deriving DecidableEq, Repr

/-- Modelled from the spec: the `IssueAnalysis` snapshot built outside
`checks.go` (absent from the sources), with the fields the engine reads. -/
structure IssueAnalysis where
  Issue : Issue
  NumActivities : Nat
  IssuesCompletion : Completion
  PointsCompletion : Completion
  IssueNoComponent : Bool
  Component : Option String
  CommentStatus : CheckResultStatus
deriving DecidableEq, Repr

/-- Method `CheckResult.SetReady` from `analysis/checks.go`. -/
def CheckResult.SetReady (r : CheckResult) (ready : Bool) : CheckResult :=
  if r.Ready && !ready then { r with Ready := false } else r

/-- Method `CheckResult.SetStatus` from `analysis/checks.go`: raise-only update. -/
def CheckResult.SetStatus (r : CheckResult) (status : CheckResultStatus) : CheckResult :=
  if r.Status.toNat < status.toNat then { r with Status := status } else r

/-- Method `CheckResult.AddMessage` from `analysis/checks.go`. -/
def CheckResult.AddMessage (r : CheckResult) (message : String) : CheckResult :=
  { r with Messages := r.Messages ++ [message] }

/-- Rule `checkAlongside`: the Go loop returns at the first fix version whose name
starts with "Alongside". -/
def CheckResult.checkAlongside (r : CheckResult) (a : IssueAnalysis) : CheckResult :=
  if a.Issue.Fields.FixVersions.any (fun v => hasPrefixGo v.Name "Alongside") then
    r.AddMessage "ALONGSIDE"
  else r

/-- Rule `checkVersion` from `analysis/checks.go`. -/
def CheckResult.checkVersion (r : CheckResult) (a : IssueAnalysis) : CheckResult :=
  let r := if a.Issue.Fields.FixVersions.length = 0 then
    (r.SetReady false).AddMessage "NOVERSION" else r
  if a.Issue.Fields.FixVersions.length > 1 then r.AddMessage "MULTIVERSION" else r

/-- Rule `checkActivities` from `analysis/checks.go`. -/
def CheckResult.checkActivities (r : CheckResult) (a : IssueAnalysis) : CheckResult :=
  if a.Issue.IsTypeEpic && a.NumActivities == 0 then
    (r.SetReady false).AddMessage "NOSTORIES"
  else r

/-- Rule `checkDescription` from `analysis/checks.go`. -/
def CheckResult.checkDescription (r : CheckResult) (a : IssueAnalysis) : CheckResult :=
  if a.Issue.Fields.Description == "" then
    (r.SetReady false).AddMessage "NODESCRIPTION"
  else r

/-- Rule `checkApprovals` from `analysis/checks.go`. -/
def CheckResult.checkApprovals (r : CheckResult) (a : IssueAnalysis) : CheckResult :=
  if a.Issue.IsTypeEpic && !a.Issue.Approved then
    (r.SetReady false).AddMessage "NOACKS"
  else r

/-- Rule `checkDeliveryOwner` from `analysis/checks.go`. -/
def CheckResult.checkDeliveryOwner (r : CheckResult) (a : IssueAnalysis) : CheckResult :=
  if a.Issue.Owner == "" then
    ((r.SetReady false).SetStatus .red).AddMessage "NODELIVERYOWNER"
  else r

/-- Rule `checkPlanningFlags` from `analysis/checks.go`. -/
def CheckResult.checkPlanningFlags (r : CheckResult) (a : IssueAnalysis) : CheckResult :=
  let r := if a.Issue.Planning.NoQE then r.AddMessage "NOQE" else r
  let r := if a.Issue.Planning.NoFeature then r.AddMessage "NOFEATURE" else r
  if a.Issue.Planning.NoDoc then r.AddMessage "NODOC" else r

/-- Rule `checkQAContact` from `analysis/checks.go`. -/
def CheckResult.checkQAContact (r : CheckResult) (a : IssueAnalysis) : CheckResult :=
  if a.Issue.Planning.NoQE then
    if a.Issue.QAContact != "" then
      (r.SetReady false).AddMessage "NOQEMISMATCH"
    else r
  else if a.Issue.QAContact == "" then
    ((r.SetReady false).SetStatus .red).AddMessage "NOQACONTACT"
  else r

/-- Rule `checkAcceptanceCriteria` from `analysis/checks.go`. -/
def CheckResult.checkAcceptanceCriteria (r : CheckResult) (a : IssueAnalysis) : CheckResult :=
  if a.Issue.Acceptance == "" then
    ((r.SetReady false).SetStatus .red).AddMessage "NOCRITERIA"
  else r

/-- Rule `checkPriority` from `analysis/checks.go`. -/
def CheckResult.checkPriority (r : CheckResult) (a : IssueAnalysis) : CheckResult :=
  if !a.Issue.IsPrioritized then
    ((r.SetReady false).SetStatus .red).AddMessage "NOPRIORITY"
  else r

/-- Rule `checkStarted` from `analysis/checks.go`. -/
def CheckResult.checkStarted (r : CheckResult) (a : IssueAnalysis) : CheckResult :=
  if !a.Issue.IsActive && !a.Issue.InStatusDone then
    (r.SetStatus .yellow).AddMessage "NOTSTARTED"
  else r

/-- Rule `checkStoryPoints` from `analysis/checks.go`. -/
def CheckResult.checkStoryPoints (r : CheckResult) (a : IssueAnalysis) : CheckResult :=
  if a.PointsCompletion.Unknown > 0 then r.AddMessage "NOSTORYPOINTS" else r

/-- Rule `checkImpediment` from `analysis/checks.go`. -/
def CheckResult.checkImpediment (r : CheckResult) (a : IssueAnalysis) : CheckResult :=
  if a.Issue.Impediment || AnyImpediment a.Issue.LinkedIssues then
    (r.SetStatus .red).AddMessage "IMPEDIMENT"
  else r

/-- Rule `checkInitiative` from `analysis/checks.go`. -/
def CheckResult.checkInitiative (r : CheckResult) (a : IssueAnalysis) : CheckResult :=
  if a.Issue.IsTypeEpic && a.Issue.ParentLink == "" then
    (r.SetReady false).AddMessage "NOINITIATIVE"
  else r

/-- Rule `checkIssueComponent` from `analysis/checks.go`. -/
def CheckResult.checkIssueComponent (r : CheckResult) (a : IssueAnalysis) : CheckResult :=
  if a.IssueNoComponent then (r.SetReady false).AddMessage "ISSUENOCOMPONENT" else r

/-- Rule `checkComponent` from `analysis/checks.go`: the Go loop clears `missing`
on the first component whose name equals the target component. -/
def CheckResult.checkComponent (r : CheckResult) (a : IssueAnalysis) : CheckResult :=
  match a.Component with
  | Option.none => r
  | Option.some comp =>
    if a.Issue.Fields.Components.any (fun c => c.Name == comp) then r
    else ((r.SetReady false).SetStatus .yellow).AddMessage "NOCOMPONENT"

/-- Rule `checkDone` from `analysis/checks.go`. -/
def CheckResult.checkDone (r : CheckResult) (a : IssueAnalysis) : CheckResult :=
  if !a.Issue.InStatusDone then r
  else if a.IssuesCompletion.Status != a.IssuesCompletion.Total ||
      a.PointsCompletion.Status != a.PointsCompletion.Total then
    (r.SetStatus .red).AddMessage "NOTDONE"
  else r.SetStatus .green

/-- Rule `checkStatusComment` from `analysis/checks.go`. -/
def CheckResult.checkStatusComment (r : CheckResult) (a : IssueAnalysis) : CheckResult :=
  if a.CommentStatus == .none then r.AddMessage "NOSTATUSCOMMENT"
  else r.SetStatus a.CommentStatus

/-- Rule `checkLinkedEpic` from `analysis/checks.go`. -/
def CheckResult.checkLinkedEpic (r : CheckResult) (a : IssueAnalysis) : CheckResult :=
  if !a.Issue.IsTypeStory then r
  else
    match a.Issue.Fields.Epic with
    | Option.none => (r.SetReady false).AddMessage "NOEPIC"
    | Option.some e =>
      if e.Key == "" then (r.SetReady false).AddMessage "NOEPIC" else r

/-- Rule `checkStartedStories` from `analysis/checks.go`. -/
def CheckResult.checkStartedStories (r : CheckResult) (a : IssueAnalysis) : CheckResult :=
  if !a.Issue.IsTypeEpic || !a.Issue.IsActive then r
  else
    let linkedIssues : List LinkedIssue := match a.Component with
      | Option.some comp => a.Issue.LinkedIssues.filter (fun i => i.HasComponent comp)
      | Option.none => a.Issue.LinkedIssues
    let activeIssues := linkedIssues.filter (fun i => i.IsActive || i.InStatusDone)
    if activeIssues.length = 0 then (r.SetStatus .red).AddMessage "NOACTIVESTORIES"
    else r

/-- Rule `checkDesign` from `analysis/checks.go`. -/
def CheckResult.checkDesign (r : CheckResult) (a : IssueAnalysis) : CheckResult :=
  if !a.Issue.Planning.NoFeature && a.Issue.Design == "" then
    (r.SetReady false).AddMessage "NODESIGN"
  else r

/-- Names for the 21 checks registered in `NewCheckResult`, so that the
registered rule list can be manipulated as data. -/
inductive Check where
  | alongside
  | version
  | activities
  | description
  | approvals
  | planningFlags
  | deliveryOwner
  | qaContact
  | acceptanceCriteria
  | priority
  | started
  | storyPoints
  | impediment
  | initiative
  | issueComponent
  | component
  | done
  | startedStories
  | linkedEpic
  | statusComment
  | design
deriving DecidableEq, Repr

/-- Dispatch a named check to its `checks.go` function. -/
def runCheck (c : Check) (r : CheckResult) (a : IssueAnalysis) : CheckResult :=
  match c with
  | .alongside => r.checkAlongside a
  | .version => r.checkVersion a
  | .activities => r.checkActivities a
  | .description => r.checkDescription a
  | .approvals => r.checkApprovals a
  | .planningFlags => r.checkPlanningFlags a
  | .deliveryOwner => r.checkDeliveryOwner a
  | .qaContact => r.checkQAContact a
  | .acceptanceCriteria => r.checkAcceptanceCriteria a
  | .priority => r.checkPriority a
  | .started => r.checkStarted a
  | .storyPoints => r.checkStoryPoints a
  | .impediment => r.checkImpediment a
  | .initiative => r.checkInitiative a
  | .issueComponent => r.checkIssueComponent a
  | .component => r.checkComponent a
  | .done => r.checkDone a
  | .startedStories => r.checkStartedStories a
  | .linkedEpic => r.checkLinkedEpic a
  | .statusComment => r.checkStatusComment a
  | .design => r.checkDesign a

/-- The rule list of `NewCheckResult` (`checks.go` lines 59-81), in the exact
registration order of the source. -/
def checks : List Check :=
  [.alongside, .version, .activities, .description, .approvals, .planningFlags,
   .deliveryOwner, .qaContact, .acceptanceCriteria, .priority, .started,
   .storyPoints, .impediment, .initiative, .issueComponent, .component, .done,
   .startedStories, .linkedEpic, .statusComment, .design]

/-- Run a list of checks left to right over the accumulator, as the `for`
loop of `NewCheckResult` does. -/
def runChecks (l : List Check) (a : IssueAnalysis) (r : CheckResult) : CheckResult :=
  l.foldl (fun r c => runCheck c r a) r

/-- The fresh accumulator built at the top of `NewCheckResult`. -/
def initResult : CheckResult :=
  { Ready := true, Status := .none, Messages := [] }

/-- Function `NewCheckResult` from `analysis/checks.go`: obsolete short-circuit, then
the registered checks in order. -/
def NewCheckResult (a : IssueAnalysis) : CheckResult :=
  if a.Issue.InStatusObsolete then initResult.AddMessage "OBSOLETE"
  else runChecks checks a initResult

/-! ### Algebra of the accumulator operations -/

/-- The raise operation of the severity lattice: `SetStatus` only assigns when
the candidate's integer value is strictly greater. -/
def statusMax (s t : CheckResultStatus) : CheckResultStatus :=
  if s.toNat < t.toNat then t else s

theorem SetReady_eq (r : CheckResult) (b : Bool) :
    r.SetReady b = { r with Ready := r.Ready && b } := by
  cases r with
  | mk rd st ms => cases rd <;> cases b <;> simp [CheckResult.SetReady]

theorem SetStatus_eq (r : CheckResult) (s : CheckResultStatus) :
    r.SetStatus s = { r with Status := statusMax r.Status s } := by
  cases r with
  | mk rd st ms =>
    simp only [CheckResult.SetStatus, statusMax]
    split <;> simp [*]

theorem SetReady_Ready (r : CheckResult) (b : Bool) :
    (r.SetReady b).Ready = (r.Ready && b) := by rw [SetReady_eq]

theorem SetReady_Status (r : CheckResult) (b : Bool) :
    (r.SetReady b).Status = r.Status := by rw [SetReady_eq]

theorem SetReady_Messages (r : CheckResult) (b : Bool) :
    (r.SetReady b).Messages = r.Messages := by rw [SetReady_eq]

theorem SetStatus_Ready (r : CheckResult) (s : CheckResultStatus) :
    (r.SetStatus s).Ready = r.Ready := by rw [SetStatus_eq]

theorem SetStatus_Status (r : CheckResult) (s : CheckResultStatus) :
    (r.SetStatus s).Status = statusMax r.Status s := by rw [SetStatus_eq]

theorem SetStatus_Messages (r : CheckResult) (s : CheckResultStatus) :
    (r.SetStatus s).Messages = r.Messages := by rw [SetStatus_eq]

theorem AddMessage_Ready (r : CheckResult) (m : String) :
    (r.AddMessage m).Ready = r.Ready := rfl

theorem AddMessage_Status (r : CheckResult) (m : String) :
    (r.AddMessage m).Status = r.Status := rfl

theorem AddMessage_Messages (r : CheckResult) (m : String) :
    (r.AddMessage m).Messages = r.Messages ++ [m] := rfl

theorem statusMax_none_left (s : CheckResultStatus) : statusMax .none s = s := by
  cases s <;> rfl

theorem statusMax_none_right (s : CheckResultStatus) : statusMax s .none = s := by
  cases s <;> rfl

theorem statusMax_assoc (s t u : CheckResultStatus) :
    statusMax (statusMax s t) u = statusMax s (statusMax t u) := by
  cases s <;> cases t <;> cases u <;> rfl

theorem statusMax_comm (s t : CheckResultStatus) : statusMax s t = statusMax t s := by
  cases s <;> cases t <;> rfl

theorem statusMax_self (s : CheckResultStatus) : statusMax s s = s := by
  cases s <;> rfl

theorem statusMax_right_idem (s t : CheckResultStatus) :
    statusMax (statusMax s t) t = statusMax s t := by
  cases s <;> cases t <;> rfl

theorem le_statusMax_left (s t : CheckResultStatus) : s ≤ statusMax s t := by
  cases s <;> cases t <;> decide

theorem le_statusMax_right (s t : CheckResultStatus) : t ≤ statusMax s t := by
  cases s <;> cases t <;> decide

theorem statusMax_eq_or (s t : CheckResultStatus) :
    statusMax s t = s ∨ statusMax s t = t := by
  cases s <;> cases t <;> decide

/-- Pointwise combination of two accumulators: readiness is conjoined,
severity is raised, messages are appended.  Every check contributes to the
accumulator exactly through this operation. -/
def merge (r e : CheckResult) : CheckResult :=
  { Ready := r.Ready && e.Ready,
    Status := statusMax r.Status e.Status,
    Messages := r.Messages ++ e.Messages }

theorem merge_initResult (r : CheckResult) : merge r initResult = r := by
  cases r with
  | mk rd st ms => simp [merge, initResult, statusMax_none_right]

theorem merge_assoc (r e f : CheckResult) :
    merge (merge r e) f = merge r (merge e f) := by
  simp [merge, Bool.and_assoc, statusMax_assoc]

theorem merge_AddMessage (r e : CheckResult) (m : String) :
    merge r (e.AddMessage m) = (merge r e).AddMessage m := by
  simp [merge, CheckResult.AddMessage]

theorem merge_SetStatus (r e : CheckResult) (s : CheckResultStatus) :
    merge r (e.SetStatus s) = (merge r e).SetStatus s := by
  rw [SetStatus_eq, SetStatus_eq]
  simp [merge, statusMax_assoc]

theorem merge_SetReady (r e : CheckResult) (b : Bool) :
    merge r (e.SetReady b) = (merge r e).SetReady b := by
  rw [SetReady_eq, SetReady_eq]
  simp [merge, Bool.and_assoc]

/-- The contribution of one check on a given snapshot, read off by running the
check on the fresh accumulator.  No check reads the accumulator, so this
contribution is a function of the snapshot alone. -/
def effect (c : Check) (a : IssueAnalysis) : CheckResult :=
  runCheck c initResult a

/-- Every check acts on the accumulator as a `merge` with its own
snapshot-determined contribution. -/
theorem runCheck_merge (c : Check) (a : IssueAnalysis) (r : CheckResult) :
    runCheck c r a = merge r (effect c a) := by
  cases c <;>
    simp only [runCheck, effect, CheckResult.checkAlongside, CheckResult.checkVersion,
      CheckResult.checkActivities, CheckResult.checkDescription, CheckResult.checkApprovals,
      CheckResult.checkPlanningFlags, CheckResult.checkDeliveryOwner, CheckResult.checkQAContact,
      CheckResult.checkAcceptanceCriteria, CheckResult.checkPriority, CheckResult.checkStarted,
      CheckResult.checkStoryPoints, CheckResult.checkImpediment, CheckResult.checkInitiative,
      CheckResult.checkIssueComponent, CheckResult.checkComponent, CheckResult.checkDone,
      CheckResult.checkStatusComment, CheckResult.checkLinkedEpic,
      CheckResult.checkStartedStories, CheckResult.checkDesign] <;>
    (try cases a.Component) <;>
    (try cases a.Issue.Fields.Epic) <;>
    (try dsimp only) <;>
    (try split_ifs) <;>
    simp [merge_AddMessage, merge_SetStatus, merge_SetReady, merge_initResult]

theorem runChecks_nil (a : IssueAnalysis) (r : CheckResult) :
    runChecks [] a r = r := rfl

theorem runChecks_cons (c : Check) (l : List Check) (a : IssueAnalysis) (r : CheckResult) :
    runChecks (c :: l) a r = runChecks l a (runCheck c r a) := rfl

/-- Running any list of checks acts on the accumulator as one `merge` with the
combined contribution of the list. -/
theorem runChecks_merge (l : List Check) (a : IssueAnalysis) (r : CheckResult) :
    runChecks l a r = merge r (runChecks l a initResult) := by
  induction l generalizing r with
  | nil => simp [runChecks_nil, merge_initResult]
  | cons c l ih =>
    rw [runChecks_cons, runChecks_cons, ih (runCheck c r a),
      ih (runCheck c initResult a), runCheck_merge c a r]
    have he : runCheck c initResult a = effect c a := rfl
    rw [he, merge_assoc]

/-! ### Message contribution of each check -/

/-- The messages a given check appends on a given snapshot, written out
explicitly per rule trigger (read off `analysis/checks.go`). -/
def msgList (c : Check) (a : IssueAnalysis) : List String :=
  match c with
  | .alongside =>
      if a.Issue.Fields.FixVersions.any (fun v => hasPrefixGo v.Name "Alongside") then
        ["ALONGSIDE"] else []
  | .version =>
      (if a.Issue.Fields.FixVersions.length = 0 then ["NOVERSION"] else []) ++
      (if a.Issue.Fields.FixVersions.length > 1 then ["MULTIVERSION"] else [])
  | .activities =>
      if a.Issue.IsTypeEpic && a.NumActivities == 0 then ["NOSTORIES"] else []
  | .description =>
      if a.Issue.Fields.Description == "" then ["NODESCRIPTION"] else []
  | .approvals =>
      if a.Issue.IsTypeEpic && !a.Issue.Approved then ["NOACKS"] else []
  | .planningFlags =>
      (if a.Issue.Planning.NoQE then ["NOQE"] else []) ++
      (if a.Issue.Planning.NoFeature then ["NOFEATURE"] else []) ++
      (if a.Issue.Planning.NoDoc then ["NODOC"] else [])
  | .deliveryOwner =>
      if a.Issue.Owner == "" then ["NODELIVERYOWNER"] else []
  | .qaContact =>
      if a.Issue.Planning.NoQE then
        if a.Issue.QAContact != "" then ["NOQEMISMATCH"] else []
      else if a.Issue.QAContact == "" then ["NOQACONTACT"] else []
  | .acceptanceCriteria =>
      if a.Issue.Acceptance == "" then ["NOCRITERIA"] else []
  | .priority =>
      if !a.Issue.IsPrioritized then ["NOPRIORITY"] else []
  | .started =>
      if !a.Issue.IsActive && !a.Issue.InStatusDone then ["NOTSTARTED"] else []
  | .storyPoints =>
      if a.PointsCompletion.Unknown > 0 then ["NOSTORYPOINTS"] else []
  | .impediment =>
      if a.Issue.Impediment || AnyImpediment a.Issue.LinkedIssues then ["IMPEDIMENT"] else []
  | .initiative =>
      if a.Issue.IsTypeEpic && a.Issue.ParentLink == "" then ["NOINITIATIVE"] else []
  | .issueComponent =>
      if a.IssueNoComponent then ["ISSUENOCOMPONENT"] else []
  | .component =>
      match a.Component with
      | Option.none => []
      | Option.some comp =>
        if a.Issue.Fields.Components.any (fun c => c.Name == comp) then []
        else ["NOCOMPONENT"]
  | .done =>
      if !a.Issue.InStatusDone then []
      else if a.IssuesCompletion.Status != a.IssuesCompletion.Total ||
          a.PointsCompletion.Status != a.PointsCompletion.Total then ["NOTDONE"]
      else []
  | .startedStories =>
      if !a.Issue.IsTypeEpic || !a.Issue.IsActive then []
      else
        let linkedIssues : List LinkedIssue := match a.Component with
          | Option.some comp => a.Issue.LinkedIssues.filter (fun i => i.HasComponent comp)
          | Option.none => a.Issue.LinkedIssues
        let activeIssues := linkedIssues.filter (fun i => i.IsActive || i.InStatusDone)
        if activeIssues.length = 0 then ["NOACTIVESTORIES"] else []
  | .linkedEpic =>
      if !a.Issue.IsTypeStory then []
      else
        match a.Issue.Fields.Epic with
        | Option.none => ["NOEPIC"]
        | Option.some e => if e.Key == "" then ["NOEPIC"] else []
  | .statusComment =>
      if a.CommentStatus == .none then ["NOSTATUSCOMMENT"] else []
  | .design =>
      if !a.Issue.Planning.NoFeature && a.Issue.Design == "" then ["NODESIGN"] else []

/-- The messages a check contributes are exactly its `msgList`. -/
theorem effect_messages (c : Check) (a : IssueAnalysis) :
    (effect c a).Messages = msgList c a := by
  cases c <;>
    simp only [effect, runCheck, msgList, CheckResult.checkAlongside,
      CheckResult.checkVersion, CheckResult.checkActivities, CheckResult.checkDescription,
      CheckResult.checkApprovals, CheckResult.checkPlanningFlags,
      CheckResult.checkDeliveryOwner, CheckResult.checkQAContact,
      CheckResult.checkAcceptanceCriteria, CheckResult.checkPriority,
      CheckResult.checkStarted, CheckResult.checkStoryPoints, CheckResult.checkImpediment,
      CheckResult.checkInitiative, CheckResult.checkIssueComponent,
      CheckResult.checkComponent, CheckResult.checkDone, CheckResult.checkStatusComment,
      CheckResult.checkLinkedEpic, CheckResult.checkStartedStories,
      CheckResult.checkDesign] <;>
    (try cases a.Component) <;>
    (try cases a.Issue.Fields.Epic) <;>
    (try dsimp only) <;>
    (try split_ifs) <;>
    simp [SetReady_Messages, SetStatus_Messages, AddMessage_Messages, initResult]

/-- The message list of a run is the concatenation of the per-check message
lists, in the order the checks were run. -/
theorem runChecks_messages (l : List Check) (a : IssueAnalysis) (r : CheckResult) :
    (runChecks l a r).Messages = r.Messages ++ (l.map (fun c => msgList c a)).flatten := by
  induction l generalizing r with
  | nil => simp [runChecks_nil]
  | cons c l ih =>
    rw [runChecks_cons, ih, runCheck_merge]
    simp [merge, effect_messages]


/-! ### Ready and Status characterizations, permutation invariance -/

theorem runChecks_Ready (l : List Check) (a : IssueAnalysis) (r : CheckResult) :
    (runChecks l a r).Ready = (r.Ready && (runChecks l a initResult).Ready) := by
  rw [runChecks_merge]
  rfl

theorem runChecks_Status (l : List Check) (a : IssueAnalysis) (r : CheckResult) :
    (runChecks l a r).Status = statusMax r.Status (runChecks l a initResult).Status := by
  rw [runChecks_merge]
  rfl

theorem runChecks_cons_Ready (c : Check) (l : List Check) (a : IssueAnalysis) :
    (runChecks (c :: l) a initResult).Ready =
      ((effect c a).Ready && (runChecks l a initResult).Ready) := by
  rw [runChecks_cons]
  have he : runCheck c initResult a = effect c a := rfl
  rw [he, runChecks_Ready]

theorem runChecks_cons_Status (c : Check) (l : List Check) (a : IssueAnalysis) :
    (runChecks (c :: l) a initResult).Status =
      statusMax (effect c a).Status (runChecks l a initResult).Status := by
  rw [runChecks_cons]
  have he : runCheck c initResult a = effect c a := rfl
  rw [he, runChecks_Status]

theorem statusMax_left_comm (s t u : CheckResultStatus) :
    statusMax s (statusMax t u) = statusMax t (statusMax s u) := by
  cases s <;> cases t <;> cases u <;> rfl

/-- The final readiness of a run does not depend on the order of the checks. -/
theorem runChecks_perm_Ready {l l' : List Check} (h : l.Perm l') (a : IssueAnalysis) :
    (runChecks l a initResult).Ready = (runChecks l' a initResult).Ready := by
  induction h with
  | nil => rfl
  | cons c _ ih => rw [runChecks_cons_Ready, runChecks_cons_Ready, ih]
  | swap x y l =>
      rw [runChecks_cons_Ready, runChecks_cons_Ready,
        runChecks_cons_Ready, runChecks_cons_Ready, Bool.and_left_comm]
  | trans _ _ ih1 ih2 => rw [ih1, ih2]

/-- The final severity of a run does not depend on the order of the checks. -/
theorem runChecks_perm_Status {l l' : List Check} (h : l.Perm l') (a : IssueAnalysis) :
    (runChecks l a initResult).Status = (runChecks l' a initResult).Status := by
  induction h with
  | nil => rfl
  | cons c _ ih => rw [runChecks_cons_Status, runChecks_cons_Status, ih]
  | swap x y l =>
      rw [runChecks_cons_Status, runChecks_cons_Status,
        runChecks_cons_Status, runChecks_cons_Status, statusMax_left_comm]
  | trans _ _ ih1 ih2 => rw [ih1, ih2]

/-! ### Diagnostic-code vocabulary -/

/-- Every diagnostic code appearing in the policy table of the spec, i.e.
every string literal passed to `AddMessage` in `analysis/checks.go`. -/
def vocabulary : List String :=
  ["OBSOLETE", "ALONGSIDE", "NOVERSION", "MULTIVERSION", "NOSTORIES",
   "NODESCRIPTION", "NOACKS", "NODELIVERYOWNER", "NOQE", "NOFEATURE", "NODOC",
   "NOQEMISMATCH", "NOQACONTACT", "NOCRITERIA", "NOPRIORITY", "NOTSTARTED",
   "NOSTORYPOINTS", "IMPEDIMENT", "NOINITIATIVE", "ISSUENOCOMPONENT",
   "NOCOMPONENT", "NOTDONE", "NOSTATUSCOMMENT", "NOEPIC", "NOACTIVESTORIES",
   "NODESIGN"]

theorem msgList_mem_vocabulary (c : Check) (a : IssueAnalysis) (m : String)
    (h : m ∈ msgList c a) : m ∈ vocabulary := by
  cases c <;> simp only [msgList] at h <;>
    (repeat' (split at h)) <;>
    (try simp_all [vocabulary]) <;>
    (try tauto)

theorem msgList_count_alongside (c : Check) (a : IssueAnalysis) :
    (msgList c a).count "ALONGSIDE" ≤ (if c = Check.alongside then 1 else 0) := by
  cases c <;> simp only [msgList] <;>
    (repeat' split) <;>
    (try simp_all)

/-! ### Concrete snapshots used as witnesses and counterexamples -/

/-- A concrete non-obsolete issue: no-QE flag set, empty delivery owner,
empty QA contact, one plain fix version, everything else populated. -/
def exIssue : Issue :=
  { Fields := { FixVersions := [{ Name := "v1" }], Description := "d",
                Components := [], Epic := Option.some { Key := "E-1" } },
    Owner := "", QAContact := "", Acceptance := "ok", Design := "doc",
    ParentLink := "p",
    Planning := { NoQE := true, NoFeature := false, NoDoc := false },
    Impediment := false, LinkedIssues := [],
    InStatusObsolete := false, InStatusDone := true, IsActive := false,
    IsTypeEpic := false, IsTypeStory := false, Approved := true,
    IsPrioritized := true }

/-- A concrete non-obsolete snapshot around `exIssue`. -/
def exA : IssueAnalysis :=
  { Issue := exIssue, NumActivities := 1,
    IssuesCompletion := { Status := 0, Total := 0, Unknown := 0 },
    PointsCompletion := { Status := 0, Total := 0, Unknown := 0 },
    IssueNoComponent := false, Component := Option.none,
    CommentStatus := .green }

/-- The snapshot `exA` with the issue marked Obsolete. -/
def exObs : IssueAnalysis :=
  { exA with Issue := { exIssue with InStatusObsolete := true } }

/-- The snapshot `exA` with an inconsistent issues-completion counter
(4 of 5) on a Done issue: the spec's Done-consistency failing input. -/
def exDoneBad : IssueAnalysis :=
  { exA with IssuesCompletion := { Status := 4, Total := 5, Unknown := 0 } }

/-- The snapshot `exA` with a QA contact assigned while the no-QE flag is
set: the QA-contact mismatch input. -/
def exQA : IssueAnalysis :=
  { exA with Issue := { exIssue with QAContact := "qa" } }

/-- The snapshot `exA` with target component "Core" configured while the
issue's own components are only "Other". -/
def exComp : IssueAnalysis :=
  { exA with
    Component := Option.some "Core",
    Issue := { exIssue with
      Fields := { exIssue.Fields with Components := [{ Name := "Other" }] } } }

/-- The registered rule order with its first two checks exchanged: a concrete
non-trivial permutation of `checks`. -/
def checksSwapped : List Check :=
  [.version, .alongside, .activities, .description, .approvals, .planningFlags,
   .deliveryOwner, .qaContact, .acceptanceCriteria, .priority, .started,
   .storyPoints, .impediment, .initiative, .issueComponent, .component, .done,
   .startedStories, .linkedEpic, .statusComment, .design]

/-- The rule order asserted by the specification's policy table and by C1:
delivery owner before the planning flags, and the tail ordered as done,
status comment, linked epic, active child stories, design. -/
def specClaimOrder : List Check :=
  [.alongside, .version, .activities, .description, .approvals, .deliveryOwner,
   .planningFlags, .qaContact, .acceptanceCriteria, .priority, .started,
   .storyPoints, .impediment, .initiative, .issueComponent, .component, .done,
   .statusComment, .linkedEpic, .startedStories, .design]

/-- Modelled from the spec's words, for the refinement comparison of C1: the
message sequence produced by the rule order the claim declares. -/
def specOrderMessages (a : IssueAnalysis) : List String :=
  (specClaimOrder.map (fun c => msgList c a)).flatten

/-- The message sequence produced by the code's registered rule order. -/
def codeOrderMessages (a : IssueAnalysis) : List String :=
  (checks.map (fun c => msgList c a)).flatten

/-! ### Claim theorems -/

/-- C3: for every snapshot whose issue status is Obsolete, `NewCheckResult`
returns exactly ready = true, status = NONE, messages = ["OBSOLETE"],
regardless of every other snapshot field, and no other rule runs. -/
theorem claim_C3_obsolete_short_circuit (a : IssueAnalysis)
    (h : a.Issue.InStatusObsolete = true) :
    NewCheckResult a =
      { Ready := true, Status := .none, Messages := ["OBSOLETE"] } := by
  simp [NewCheckResult, h, initResult, CheckResult.AddMessage]

/-- Witness for C3 at a concrete obsolete snapshot. -/
theorem claim_C3_witness :
    NewCheckResult exObs =
      { Ready := true, Status := .none, Messages := ["OBSOLETE"] } :=
  claim_C3_obsolete_short_circuit exObs rfl

/-- C5: `SetReady false` is idempotent, and `SetStatus X` is idempotent for
every severity X, one application leaving the status at `max(current, X)`
under the order NONE < GREEN < YELLOW < RED. -/
theorem claim_C5_idempotent_merges :
    (∀ r : CheckResult, (r.SetReady false).SetReady false = r.SetReady false) ∧
    (∀ (r : CheckResult) (s : CheckResultStatus),
      (r.SetStatus s).SetStatus s = r.SetStatus s) ∧
    (∀ (r : CheckResult) (s : CheckResultStatus),
      (r.SetStatus s).Status = statusMax r.Status s) ∧
    (∀ s t : CheckResultStatus,
      s ≤ statusMax s t ∧ t ≤ statusMax s t ∧
        (statusMax s t = s ∨ statusMax s t = t)) := by
  refine ⟨?_, ?_, ?_, ?_⟩
  · intro r
    rw [SetReady_eq, SetReady_eq]
    simp [Bool.and_assoc]
  · intro r s
    rw [SetStatus_eq, SetStatus_eq]
    simp [statusMax_right_idem]
  · intro r s
    rw [SetStatus_eq]
  · intro s t
    exact ⟨le_statusMax_left s t, le_statusMax_right s t, statusMax_eq_or s t⟩

/-- C2: every accumulator mutation (`SetReady`, `SetStatus`, `AddMessage`)
and every rule built from them is monotone within one evaluation: the Ready
flag only ever falls from true to false, and the Status only ever rises along
NONE < GREEN < YELLOW < RED. -/
theorem claim_C2_monotonic :
    (∀ (r : CheckResult) (b : Bool),
      (r.SetReady b).Ready ≤ r.Ready ∧ r.Status ≤ (r.SetReady b).Status) ∧
    (∀ (r : CheckResult) (s : CheckResultStatus),
      (r.SetStatus s).Ready ≤ r.Ready ∧ r.Status ≤ (r.SetStatus s).Status) ∧
    (∀ (r : CheckResult) (m : String),
      (r.AddMessage m).Ready ≤ r.Ready ∧ r.Status ≤ (r.AddMessage m).Status) ∧
    (∀ (c : Check) (a : IssueAnalysis) (r : CheckResult),
      (runCheck c r a).Ready ≤ r.Ready ∧ r.Status ≤ (runCheck c r a).Status) ∧
    (∀ (l : List Check) (a : IssueAnalysis) (r : CheckResult),
      (runChecks l a r).Ready ≤ r.Ready ∧ r.Status ≤ (runChecks l a r).Status) := by
  have hb : ∀ x y : Bool, (x && y) ≤ x := by decide
  have hrb : ∀ x : Bool, x ≤ x := by decide
  have hle : ∀ s : CheckResultStatus, s ≤ s := by intro s; cases s <;> decide
  refine ⟨?_, ?_, ?_, ?_, ?_⟩
  · intro r b
    rw [SetReady_eq]
    exact ⟨hb r.Ready b, hle r.Status⟩
  · intro r s
    rw [SetStatus_eq]
    exact ⟨hrb r.Ready, le_statusMax_left r.Status s⟩
  · intro r m
    exact ⟨hrb r.Ready, hle r.Status⟩
  · intro c a r
    rw [runCheck_merge]
    exact ⟨hb r.Ready (effect c a).Ready, le_statusMax_left r.Status (effect c a).Status⟩
  · intro l a r
    rw [runChecks_merge]
    exact ⟨hb r.Ready (runChecks l a initResult).Ready,
      le_statusMax_left r.Status (runChecks l a initResult).Status⟩

theorem statusMax_red_right (s : CheckResultStatus) : statusMax s .red = .red := by
  cases s <;> rfl

/-- C6: on a Done issue, inconsistent completion counters force status RED
and append NOTDONE; fully consistent counters raise the status to at least
GREEN with no message; on a non-Done issue the rule changes nothing. -/
theorem claim_C6_done_consistency (a : IssueAnalysis) (r : CheckResult) :
    (a.Issue.InStatusDone = true →
      ((¬a.IssuesCompletion.Status = a.IssuesCompletion.Total ∨
          ¬a.PointsCompletion.Status = a.PointsCompletion.Total) →
        r.checkDone a =
          { Ready := r.Ready, Status := .red,
            Messages := r.Messages ++ ["NOTDONE"] }) ∧
      ((a.IssuesCompletion.Status = a.IssuesCompletion.Total ∧
          a.PointsCompletion.Status = a.PointsCompletion.Total) →
        r.checkDone a =
          { Ready := r.Ready, Status := statusMax r.Status .green,
            Messages := r.Messages } ∧
        CheckResultStatus.green ≤ (r.checkDone a).Status)) ∧
    (a.Issue.InStatusDone = false → r.checkDone a = r) := by
  refine ⟨fun hd => ⟨fun hm => ?_, fun hc => ⟨?_, ?_⟩⟩, fun hd => ?_⟩
  · have hb : (a.IssuesCompletion.Status != a.IssuesCompletion.Total ||
        a.PointsCompletion.Status != a.PointsCompletion.Total) = true := by
      rcases hm with hm | hm <;> simp [hm]
    simp [CheckResult.checkDone, hd, hb, SetStatus_eq, CheckResult.AddMessage,
      statusMax_red_right]
  · have hb : (a.IssuesCompletion.Status != a.IssuesCompletion.Total ||
        a.PointsCompletion.Status != a.PointsCompletion.Total) = false := by
      simp [hc.1, hc.2]
    simp [CheckResult.checkDone, hd, hb, SetStatus_eq]
  · have hb : (a.IssuesCompletion.Status != a.IssuesCompletion.Total ||
        a.PointsCompletion.Status != a.PointsCompletion.Total) = false := by
      simp [hc.1, hc.2]
    simp only [CheckResult.checkDone, hd, hb, SetStatus_eq]
    simp only [Bool.not_true, Bool.false_eq_true, if_false, Bool.false_eq_true, if_false]
    exact le_statusMax_right r.Status .green
  · simp [CheckResult.checkDone, hd]

/-- Witness for C6: the spec's Done-consistency failing input, issues
completion 4 of 5 on a Done issue. -/
theorem claim_C6_witness :
    initResult.checkDone exDoneBad =
      { Ready := true, Status := .red, Messages := ["NOTDONE"] } :=
  ((claim_C6_done_consistency exDoneBad initResult).1 rfl).1 (Or.inl (by decide))

/-- C7: with the no-QE flag set and a non-empty QA contact, the QA-contact
rule clears readiness and appends NOQEMISMATCH without touching the status;
with the flag unset and an empty QA contact it clears readiness, raises the
status to RED and appends NOQACONTACT; in the other two combinations it
changes nothing. -/
theorem claim_C7_qa_contact (a : IssueAnalysis) (r : CheckResult) :
    (a.Issue.Planning.NoQE = true → ¬a.Issue.QAContact = "" →
      r.checkQAContact a =
        { Ready := false, Status := r.Status,
          Messages := r.Messages ++ ["NOQEMISMATCH"] }) ∧
    (a.Issue.Planning.NoQE = true → a.Issue.QAContact = "" →
      r.checkQAContact a = r) ∧
    (a.Issue.Planning.NoQE = false → a.Issue.QAContact = "" →
      r.checkQAContact a =
        { Ready := false, Status := .red,
          Messages := r.Messages ++ ["NOQACONTACT"] }) ∧
    (a.Issue.Planning.NoQE = false → ¬a.Issue.QAContact = "" →
      r.checkQAContact a = r) := by
  refine ⟨fun hq hc => ?_, fun hq hc => ?_, fun hq hc => ?_, fun hq hc => ?_⟩ <;>
    simp [CheckResult.checkQAContact, hq, hc, SetReady_eq, SetStatus_eq,
      CheckResult.AddMessage, statusMax_red_right]

/-- Witness for C7: no-QE set and QA contact "qa" assigned. -/
theorem claim_C7_witness :
    initResult.checkQAContact exQA =
      { Ready := false, Status := .none, Messages := ["NOQEMISMATCH"] } :=
  (claim_C7_qa_contact exQA initResult).1 rfl (by decide)

/-- C8: with a target component configured and absent from the issue's own
component names, the component rule clears readiness, raises the status to at
least YELLOW and appends NOCOMPONENT; with the target present, or no target
configured, it changes nothing. -/
theorem claim_C8_target_component (a : IssueAnalysis) (r : CheckResult) :
    (∀ comp, a.Component = Option.some comp →
      ((a.Issue.Fields.Components.any (fun c => c.Name == comp)) = false →
        r.checkComponent a =
          { Ready := false, Status := statusMax r.Status .yellow,
            Messages := r.Messages ++ ["NOCOMPONENT"] } ∧
        CheckResultStatus.yellow ≤ (r.checkComponent a).Status) ∧
      ((a.Issue.Fields.Components.any (fun c => c.Name == comp)) = true →
        r.checkComponent a = r)) ∧
    (a.Component = Option.none → r.checkComponent a = r) := by
  refine ⟨fun comp hc => ⟨fun hm => ⟨?_, ?_⟩, fun hm => ?_⟩, fun hc => ?_⟩
  · simp [CheckResult.checkComponent, hc, hm, SetReady_eq, SetStatus_eq,
      CheckResult.AddMessage]
  · simp only [CheckResult.checkComponent, hc, hm, SetReady_eq, SetStatus_eq,
      CheckResult.AddMessage]
    simp only [Bool.false_eq_true, if_false]
    exact le_statusMax_right r.Status .yellow
  · simp [CheckResult.checkComponent, hc, hm]
  · simp [CheckResult.checkComponent, hc]

/-- Witness for C8: target component "Core" configured, the issue's own
components are only "Other". -/
theorem claim_C8_witness :
    initResult.checkComponent exComp =
      { Ready := false, Status := .yellow, Messages := ["NOCOMPONENT"] } :=
  (((claim_C8_target_component exComp initResult).1 "Core" rfl).1 (by decide)).1

/-- C1 (amended): for every non-obsolete snapshot the message sequence equals
the concatenation of the per-rule message lists in the code's registered rule
order: Alongside, Version, Multi-version, Activities, Description, Approvals,
Planning flags (NOQE, NOFEATURE, NODOC), Delivery owner, QA contact mismatch,
QA contact missing, Acceptance criteria, Priority, Started, Story points,
Impediment, Initiative, Linked-issue component, Target component, Done,
Active child stories, Linked epic, Status comment, Design. -/
theorem claim_C1_message_order (a : IssueAnalysis)
    (h : a.Issue.InStatusObsolete = false) :
    (NewCheckResult a).Messages = codeOrderMessages a := by
  simp [NewCheckResult, h, codeOrderMessages, runChecks_messages, initResult]

/-- Witness for C1 at the concrete snapshot `exA`. -/
theorem claim_C1_witness :
    (NewCheckResult exA).Messages = codeOrderMessages exA :=
  claim_C1_message_order exA rfl

/-- C1 counterexample: on a concrete non-obsolete snapshot with the no-QE
flag set and an empty delivery owner, the code emits NOQE before
NODELIVERYOWNER, while the order declared by the claim (delivery owner
before the planning flags) yields the opposite sequence. -/
theorem claim_C1_counterexample :
    exA.Issue.InStatusObsolete = false ∧
    ¬(NewCheckResult exA).Messages = specOrderMessages exA := by
  constructor
  · rfl
  · decide

/-- C4: the final Ready and Status of a run are the same for every
permutation of the registered rule list: only the message sequence can
depend on the execution order. -/
theorem claim_C4_order_independence (a : IssueAnalysis) (l : List Check)
    (h : l.Perm checks) :
    (runChecks l a initResult).Ready = (runChecks checks a initResult).Ready ∧
    (runChecks l a initResult).Status = (runChecks checks a initResult).Status :=
  ⟨runChecks_perm_Ready h a, runChecks_perm_Status h a⟩

/-- Witness for C4: the registered order with its first two checks
exchanged, run on the concrete snapshot `exA`. -/
theorem claim_C4_witness :
    (runChecks checksSwapped exA initResult).Ready =
      (runChecks checks exA initResult).Ready ∧
    (runChecks checksSwapped exA initResult).Status =
      (runChecks checks exA initResult).Status :=
  claim_C4_order_independence exA checksSwapped (by decide)

/-- C9 (amended): every message of every evaluation is drawn from the fixed
diagnostic-code vocabulary of the policy table, which holds 26 distinct
codes, not 22. -/
theorem claim_C9_vocabulary (a : IssueAnalysis) (m : String)
    (h : m ∈ (NewCheckResult a).Messages) : m ∈ vocabulary := by
  by_cases ho : a.Issue.InStatusObsolete = true
  · simp [NewCheckResult, ho, initResult, CheckResult.AddMessage] at h
    simp [h, vocabulary]
  · have ho' : a.Issue.InStatusObsolete = false := by
      cases hv : a.Issue.InStatusObsolete
      · rfl
      · exact absurd hv ho
    simp only [NewCheckResult, ho', Bool.false_eq_true, if_false] at h
    rw [runChecks_messages] at h
    simp only [initResult, List.nil_append] at h
    obtain ⟨lm, hlm, hm⟩ := List.mem_flatten.1 h
    obtain ⟨c, _, hc⟩ := List.mem_map.1 hlm
    exact msgList_mem_vocabulary c a m (hc ▸ hm)

/-- Witness for C9: the NOQE message emitted on `exA` is in the vocabulary. -/
theorem claim_C9_witness : "NOQE" ∈ vocabulary :=
  claim_C9_vocabulary exA "NOQE" (by decide)

/-- C9 counterexample: the policy-table vocabulary holds 26 distinct codes;
the claimed count of 22 is wrong. -/
theorem claim_C9_counterexample :
    vocabulary.Nodup ∧ vocabulary.length = 26 ∧ ¬vocabulary.length = 22 := by
  decide

/-- C10: the ALONGSIDE message is appended at most once per evaluation, even
when several fix-version names start with "Alongside": the Alongside rule
stops at its first match. -/
theorem claim_C10_alongside_at_most_once (a : IssueAnalysis) :
    (NewCheckResult a).Messages.count "ALONGSIDE" ≤ 1 := by
  have key : ∀ l : List Check,
      ((l.map (fun c => msgList c a)).flatten).count "ALONGSIDE" ≤
        l.count Check.alongside := by
    intro l
    induction l with
    | nil => simp
    | cons c t ih =>
      simp only [List.map_cons, List.flatten_cons, List.count_append,
        List.count_cons]
      have h1 := msgList_count_alongside c a
      rcases Decidable.em (c = Check.alongside) with hc | hc
      · subst hc
        simp only [if_pos rfl] at h1
        have hb : (Check.alongside == Check.alongside) = true := by decide
        rw [hb]
        simp only [if_pos rfl]
        omega
      · have hb : (c == Check.alongside) = false := by
          cases c <;> simp_all
        simp only [if_neg hc] at h1
        rw [hb]
        simp only [Bool.false_eq_true, if_false]
        omega
  by_cases ho : a.Issue.InStatusObsolete = true
  · simp [NewCheckResult, ho, initResult, CheckResult.AddMessage]
  · have ho' : a.Issue.InStatusObsolete = false := by
      cases hv : a.Issue.InStatusObsolete
      · rfl
      · exact absurd hv ho
    have hmsg : (NewCheckResult a).Messages =
        (checks.map (fun c => msgList c a)).flatten := by
      simp [NewCheckResult, ho', runChecks_messages, initResult]
    rw [hmsg]
    have hcount : checks.count Check.alongside = 1 := by decide
    exact le_trans (key checks) (le_of_eq hcount)

end Jiracsv
